import Mathlib

/-!
Verification of the StudyNotesPyQt revision tracker core logic.

The definitions below are a shallow embedding of the functions in
study_notes_pyqt.py: the revision scheduler (make_revision_dates), the
status classifier used when filling the tables, the store operations
(add_note, _toggle_revision, _update_stats), the CSV and PDF export
formatters, the load_notes recovery path, and the notification poller
(_check_due_revisions).

Calendar dates are modelled with the standard proleptic Gregorian
civil-calendar day-number algorithm, which is what the Python datetime
library implements: date objects compare by day number, and adding a
timedelta of k days adds k to the day number.  Parsing with
datetime.strptime and format "%Y-%m-%d" is modelled for the canonical
zero-padded YYYY-MM-DD form, the only form this program ever produces
or stores; formatting with strftime "%Y-%m-%d" zero-pads to 4-2-2
digits.
-/

/-- Gregorian leap-year rule, as implemented by the Python datetime library. -/
def isLeapYear (y : Nat) : Bool :=
  (y % 4 == 0 && y % 100 != 0) || y % 400 == 0

/-- Number of days in a month of a given year. -/
def daysInMonth (y m : Nat) : Nat :=
  if m = 2 then (if isLeapYear y then 29 else 28)
  else if m = 4 ∨ m = 6 ∨ m = 9 ∨ m = 11 then 30
  else 31

/-- A calendar date, as carried by a Python datetime.date value. -/
structure Date where
  year : Nat
  month : Nat
  day : Nat
deriving DecidableEq, Repr

/-- Validity of a date under the rules datetime.strptime enforces:
year in 1..9999, month in 1..12, day within the month. -/
def validDate (d : Date) : Bool :=
  decide (1 ≤ d.year ∧ d.year ≤ 9999 ∧ 1 ≤ d.month ∧ d.month ≤ 12 ∧
          1 ≤ d.day ∧ d.day ≤ daysInMonth d.year d.month)

/-- Day number of a date: days elapsed since 0000-03-01 of the proleptic
Gregorian calendar (the civil-from-days construction).  Python date
objects order and subtract exactly as these day numbers do. -/
def toDays (d : Date) : Nat :=
  let y := if d.month ≤ 2 then d.year - 1 else d.year
  let era := y / 400
  let yoe := y % 400
  let mp := if 2 < d.month then d.month - 3 else d.month + 9
  let doy := (153 * mp + 2) / 5 + d.day - 1
  let doe := yoe * 365 + yoe / 4 - yoe / 100 + doy
  era * 146097 + doe

/-- Inverse of toDays: the date of a given day number. -/
def fromDays (z : Nat) : Date :=
  let era := z / 146097
  let doe := z % 146097
  let yoe := (doe - doe / 1460 + doe / 36524 - doe / 146096) / 365
  let y := yoe + era * 400
  let doy := doe - (365 * yoe + yoe / 4 - yoe / 100)
  let mp := (5 * doy + 2) / 153
  let d := doy - (153 * mp + 2) / 5 + 1
  let m := if mp < 10 then mp + 3 else mp - 9
  { year := if m ≤ 2 then y + 1 else y, month := m, day := d }

/-- Day number of 9999-12-31, the largest date the Python datetime
library represents (date.max, MAXYEAR = 9999). -/
def dateMaxDays : Nat :=
  toDays { year := 9999, month := 12, day := 31 }

/-- Addition of a timedelta of n days to a date, as Python computes it:
none models the OverflowError raised when the result would lie beyond
date.max (9999-12-31). -/
def addDays (d : Date) (n : Nat) : Option Date :=
  if toDays d + n ≤ dateMaxDays then some (fromDays (toDays d + n)) else none

/-- Strict ordering of Python date objects: lexicographic on
(year, month, day). -/
def dateLt (a b : Date) : Bool :=
  a.year < b.year ||
    (a.year == b.year &&
      (a.month < b.month || (a.month == b.month && a.day < b.day)))

/-- Splits a character list at each dash, modelling the field separation
that strptime performs for the format "%Y-%m-%d". -/
def splitDash : List Char → List (List Char)
  | [] => [[]]
  | c :: rest =>
    let r := splitDash rest
    if c = '-' then [] :: r
    else
      match r with
      | [] => [[c]]
      | h :: t => (c :: h) :: t

/-- Numeric value of a list of decimal digit characters. -/
def natOfDigits (cs : List Char) : Nat :=
  cs.foldl (fun a c => a * 10 + (c.toNat - 48)) 0

/-- Models datetime.strptime with format "%Y-%m-%d", restricted to the
canonical zero-padded YYYY-MM-DD form (the only form the program
produces): three dash-separated all-digit fields of widths 4, 2, 2,
with the month and day ranges datetime enforces.  Returns none where
Python raises ValueError. -/
def parseDate (s : String) : Option Date :=
  match splitDash s.data with
  | [ys, ms, ds] =>
    if ys.length = 4 ∧ ms.length = 2 ∧ ds.length = 2 ∧
        ys.all Char.isDigit ∧ ms.all Char.isDigit ∧ ds.all Char.isDigit then
      let dt : Date := { year := natOfDigits ys, month := natOfDigits ms,
                         day := natOfDigits ds }
      if validDate dt then some dt else none
    else none
  | _ => none

/-- Left-pads the decimal rendering of a number with zeros to a width. -/
def padZeros (width n : Nat) : String :=
  let s := toString n
  if s.length < width then String.mk (List.replicate (width - s.length) '0') ++ s
  else s

/-- Models strftime with format "%Y-%m-%d": zero-padded YYYY-MM-DD. -/
def formatDate (d : Date) : String :=
  padZeros 4 d.year ++ "-" ++ padZeros 2 d.month ++ "-" ++ padZeros 2 d.day

/-- A revision checkpoint: a target date string and a completed flag.
In the JSON data model this is one of the four values of the revisions
mapping of a note. -/
structure Checkpoint where
  date : String
  completed : Bool
deriving DecidableEq, Repr

/-- The four revision labels, in the fixed insertion order of the
revisions dictionary: 24H, 3Days, 1Week, 1Month. -/
inductive RevKey where
  | k24H
  | k3Days
  | k1Week
  | k1Month
deriving DecidableEq, Repr

/-- The revisions mapping of a note: exactly the four labelled
checkpoints, as built by make_revision_dates. -/
structure Revisions where
  r24H : Checkpoint
  r3Days : Checkpoint
  r1Week : Checkpoint
  r1Month : Checkpoint
deriving DecidableEq, Repr

/-- Checkpoint stored under a label. -/
def getRev (r : Revisions) : RevKey → Checkpoint
  | .k24H => r.r24H
  | .k3Days => r.r3Days
  | .k1Week => r.r1Week
  | .k1Month => r.r1Month

/-- Replaces the completed flag of the checkpoint under a label, leaving
its date and the other three checkpoints untouched. -/
def setRevCompleted (r : Revisions) (k : RevKey) (b : Bool) : Revisions :=
  match k with
  | .k24H => { r with r24H := { date := r.r24H.date, completed := b } }
  | .k3Days => { r with r3Days := { date := r.r3Days.date, completed := b } }
  | .k1Week => { r with r1Week := { date := r.r1Week.date, completed := b } }
  | .k1Month => { r with r1Month := { date := r.r1Month.date, completed := b } }

/-- The checkpoints in dictionary value order, as revisions.values()
yields them. -/
def revList (r : Revisions) : List Checkpoint :=
  [r.r24H, r.r3Days, r.r1Week, r.r1Month]

/-- The labelled checkpoints in dictionary item order, as
revisions.items() yields them, with the label strings used in the file. -/
def revItems (r : Revisions) : List (String × Checkpoint) :=
  [("24H", r.r24H), ("3Days", r.r3Days), ("1Week", r.r1Week),
   ("1Month", r.r1Month)]

/-- A note record as stored in the notes list. -/
structure Note where
  id : Nat
  subjectName : String
  noteCode : String
  completionDate : String
  revisions : Revisions
deriving DecidableEq, Repr

/-- Embedding of make_revision_dates: parses the completion date string
and returns the four checkpoints at offsets 1, 3, 7 and 30 days, each
with completed set to false, the offsets computed in the order the
dictionary literal evaluates them.  Returns none where Python raises:
ValueError on an unparseable date, or OverflowError when an offset
passes date.max (9999-12-31). -/
def makeRevisionDates (s : String) : Option Revisions :=
  match parseDate s with
  | none => none
  | some d =>
    match addDays d 1 with
    | none => none
    | some d1 =>
      match addDays d 3 with
      | none => none
      | some d3 =>
        match addDays d 7 with
        | none => none
        | some d7 =>
          match addDays d 30 with
          | none => none
          | some d30 =>
            some { r24H := { date := formatDate d1, completed := false }
                   r3Days := { date := formatDate d3, completed := false }
                   r1Week := { date := formatDate d7, completed := false }
                   r1Month := { date := formatDate d30, completed := false } }

/-- Display status of a checkpoint, as derived by the style rules in
the table-fill code: completed is shown green, an uncompleted
checkpoint dated before today red (overdue), dated today orange (due
today), anything else unstyled (upcoming). -/
inductive Status where
  | completedSt
  | overdue
  | dueToday
  | upcoming
deriving DecidableEq, Repr

/-- Embedding of the status derivation in the table-fill code: in
priority order, the completed flag, then date before today, then date
equal to today, then the default. -/
def classify (cpCompleted : Bool) (revDate today : Date) : Status :=
  if cpCompleted then .completedSt
  else if dateLt revDate today then .overdue
  else if revDate = today then .dueToday
  else .upcoming

/-- Note with the completed flag of one checkpoint replaced by the
flipped value, as the toggle handler rewrites it in place. -/
def flipNote (n : Note) (k : RevKey) : Note :=
  { n with revisions :=
      setRevCompleted n.revisions k (!(getRev n.revisions k).completed) }

/-- Embedding of the toggle handler loop: walk the notes list, flip the
completed flag of the addressed checkpoint of the first note whose id
matches, and stop; when no id matches the loop falls through and the
list is untouched. -/
def toggleRevision (notes : List Note) (noteId : Nat) (k : RevKey) : List Note :=
  match notes with
  | [] => []
  | n :: rest =>
    if n.id = noteId then flipNote n k :: rest
    else n :: toggleRevision rest noteId k

/-- First note in the list with the given id, as the toggle handler
locates it. -/
def findNote (notes : List Note) (noteId : Nat) : Option Note :=
  notes.find? (fun n => n.id == noteId)

/-- One step of the stats accumulation: a completed checkpoint
increments the completed counter, any other the pending counter. -/
def statsStep (acc : Nat × Nat) (r : Checkpoint) : Nat × Nat :=
  if r.completed then (acc.1, acc.2 + 1) else (acc.1 + 1, acc.2)

/-- Embedding of the stats computation: total is the length of the
notes list, and one pass over every revision value increments the
completed counter when the flag is set and the pending counter
otherwise. -/
def updateStats (notes : List Note) : Nat × Nat × Nat :=
  let pc := notes.foldl
    (fun acc n => (revList n.revisions).foldl statsStep acc)
    (0, 0)
  (notes.length, pc.1, pc.2)

/-- All checkpoints of all notes, in traversal order. -/
def allRevs (notes : List Note) : List Checkpoint :=
  (notes.map (fun n => revList n.revisions)).flatten

/-- The characters the Python str.isspace predicate accepts, the exact
set the str.strip method removes: ASCII whitespace U+0009..U+000D and
U+0020, the separators U+001C..U+001F, next line U+0085, and the
Unicode space and line/paragraph separators U+00A0, U+1680,
U+2000..U+200A, U+2028, U+2029, U+202F, U+205F and U+3000. -/
def pyIsSpace (c : Char) : Bool :=
  let n := c.toNat
  decide ((9 ≤ n ∧ n ≤ 13) ∨ (28 ≤ n ∧ n ≤ 32) ∨ n = 133 ∨ n = 160 ∨
          n = 5760 ∨ (8192 ≤ n ∧ n ≤ 8202) ∨ n = 8232 ∨ n = 8233 ∨
          n = 8239 ∨ n = 8287 ∨ n = 12288)

/-- Models the Python strip method: removes the characters of
str.isspace from both ends of a string. -/
def pyStrip (s : String) : String :=
  String.mk (((s.data.dropWhile pyIsSpace).reverse.dropWhile
    pyIsSpace).reverse)

/-- The double-quote character. -/
def dq : Char := Char.ofNat 34

/-- One double-quote character as a string. -/
def dqs : String := String.mk [dq]

/-- Models the Python replace of each double quote by two double
quotes, applied to the subject and code fields of a CSV row. -/
def escQuotes (s : String) : String :=
  String.mk (s.data.flatMap fun c => if c = dq then [dq, dq] else [c])

/-- Wraps a field in double quotes, as the CSV row writer does for
every field of a data row. -/
def quoteField (s : String) : String :=
  dqs ++ s ++ dqs

/-- Python str rendering of a boolean, as written into the CSV status
fields. -/
def pyBoolStr (b : Bool) : String :=
  if b then "True" else "False"

/-- The CSV header line, written verbatim and unquoted by export_csv. -/
def csvHeader : String :=
  "Subject,Note Code,Completion Date,24H Date,24H Status,3Days Date,3Days Status,1Week Date,1Week Status,1Month Date,1Month Status"

/-- The eleven fields of a CSV data row, before quoting: subject and
code with embedded double quotes doubled, then the completion date,
then the (date, status) pair of each checkpoint in fixed label order. -/
def csvRow (n : Note) : List String :=
  [escQuotes n.subjectName,
   escQuotes n.noteCode,
   n.completionDate,
   n.revisions.r24H.date, pyBoolStr n.revisions.r24H.completed,
   n.revisions.r3Days.date, pyBoolStr n.revisions.r3Days.completed,
   n.revisions.r1Week.date, pyBoolStr n.revisions.r1Week.completed,
   n.revisions.r1Month.date, pyBoolStr n.revisions.r1Month.completed]

/-- The lines of the CSV document: the header line followed by one line
per note, each data field wrapped in double quotes and the fields
joined with commas. -/
def exportCsvLines (notes : List Note) : List String :=
  csvHeader :: notes.map fun n =>
    String.intercalate "," ((csvRow n).map quoteField)

/-- Embedding of export_csv: rejects an empty collection (the code
shows a message and writes nothing), otherwise produces the CSV text,
the lines joined with newlines. -/
def exportCsv (notes : List Note) : Option String :=
  if notes.isEmpty then none
  else some (String.intercalate "\n" (exportCsvLines notes))

/-- The header row of the PDF table, as listed in export_pdf. -/
def pdfHeaderRow : List String :=
  ["Code", "Module", "Completed", "24H", "3 Days", "1 Week", "1 Month"]

/-- A revision cell of the PDF table: the checkpoint date, with a
checkmark suffix exactly when the completed flag is set. -/
def pdfCell (r : Checkpoint) : String :=
  r.date ++ (if r.completed then " ✓" else "")

/-- One PDF table data row per note: code, module name, completion
date, then the four revision cells in fixed label order. -/
def pdfRow (n : Note) : List String :=
  [n.noteCode, n.subjectName, n.completionDate,
   pdfCell n.revisions.r24H, pdfCell n.revisions.r3Days,
   pdfCell n.revisions.r1Week, pdfCell n.revisions.r1Month]

/-- The PDF table contents: the header row followed by one data row per
note in collection order. -/
def pdfTableData (notes : List Note) : List (List String) :=
  pdfHeaderRow :: notes.map pdfRow

/-- The trailing summary paragraph of the PDF document, carrying the
total, pending and completed counts. -/
def pdfSummary (notes : List Note) : String :=
  "Total notes: " ++ toString notes.length ++
    " — Pending revisions: " ++
    toString ((allRevs notes).countP (fun r => !r.completed)) ++
    " — Completed revisions: " ++
    toString ((allRevs notes).countP (fun r => r.completed))

/-- Embedding of export_pdf, reduced to its document content: rejects
an empty collection (the code shows a message and builds nothing),
otherwise yields the table contents and the summary line that ends the
document.  Page geometry, fonts and colors are presentation concerns
outside the data model. -/
def exportPdf (notes : List Note) : Option (List (List String) × String) :=
  if notes.isEmpty then none
  else some (pdfTableData notes, pdfSummary notes)

/-- Embedding of load_notes.  The persisted file is modelled as an
optional string (none when the file does not exist) and json.load of
the Python standard library as an abstract decoder whose none result
models a raised exception.  The function returns the decoded collection
and recovers to the empty collection on a missing file or a failed
parse. -/
def loadNotes (decode : String → Option (List Note)) (file : Option String) :
    List Note :=
  match file with
  | none => []
  | some contents =>
    match decode contents with
    | none => []
    | some notes => notes

/-- Outcome signal of the add operation: the two warning dialogs, the
date failure (in Python an uncaught ValueError or OverflowError out of
make_revision_dates, reachable only if the completion date string were
invalid or within 30 days of date.max, which the date-picker widget
never produces for its default range), or success. -/
inductive AddSignal where
  | missingSubject
  | missingCode
  | dateError
  | ok
deriving DecidableEq, Repr

/-- Embedding of add_note.  The subject combo value is modelled as an
optional (code, name) pair, none standing for the falsy placeholder
value of the select-a-subject entry.  The note code is stripped of
surrounding whitespace and must be non-empty.  On success the new note
is appended at the end of the collection (and the code then persists
the collection; none of the reject paths reaches the append or the
save). -/
def addNote (subjectData : Option (String × String)) (noteCode : String)
    (completionDate : String) (newId : Nat) (notes : List Note) :
    AddSignal × List Note :=
  match subjectData with
  | none => (.missingSubject, notes)
  | some (_, name) =>
    let nc := pyStrip noteCode
    if nc = "" then (.missingCode, notes)
    else
      match makeRevisionDates completionDate with
      | none => (.dateError, notes)
      | some revisions =>
        (.ok, notes ++ [{ id := newId, subjectName := name, noteCode := nc,
                          completionDate := completionDate,
                          revisions := revisions }])

/-- A toast notification as handed to the notifier: title and body. -/
structure Toast where
  title : String
  body : String
deriving DecidableEq, Repr

/-- Notifications produced for one note on a poller tick: for each
labelled checkpoint in dictionary order, skip it when completed,
otherwise parse its date and emit one notification when the date equals
today or lies exactly one day after today.  Today is a day number; the
Python day difference (rev_date - now).days equals the day-number
difference. -/
def dueForNote (n : Note) (today : Nat) : List Toast :=
  (revItems n.revisions).filterMap fun kr =>
    if kr.2.completed then none
    else
      match parseDate kr.2.date with
      | none => none
      | some d =>
        if toDays d = today ∨ toDays d = today + 1 then
          some { title := "Revision Reminder",
                 body := n.noteCode ++ " — " ++ kr.1 ++ " due " ++ kr.2.date }
        else none

/-- Embedding of the poller tick _check_due_revisions: a no-op when the
notifications checkbox is off or the toaster module is unavailable,
otherwise the notifications of every note, in order. -/
def checkDueRevisions (enabled toasterAvailable : Bool) (notes : List Note)
    (today : Nat) : List Toast :=
  if !enabled then []
  else if !toasterAvailable then []
  else (notes.map (fun n => dueForNote n today)).flatten

/-- Splits a character list at each comma. -/
def splitCommaAux : List Char → List (List Char)
  | [] => [[]]
  | c :: rest =>
    let r := splitCommaAux rest
    if c = ',' then [] :: r
    else
      match r with
      | [] => [[c]]
      | h :: t => (c :: h) :: t

/-- The comma-separated fields of a line without embedded commas. -/
def splitComma (s : String) : List String :=
  (splitCommaAux s.data).map String.mk

/-- Whether a field is enclosed in double quotes: at least two
characters, the first and the last a double quote. -/
def isQuoted (s : String) : Bool :=
  decide (2 ≤ s.data.length) && (s.data.head? == some dq) &&
    (s.data.getLast? == some dq)

/-- A concrete revisions record: the schedule of completion date
2025-01-10, nothing completed yet. -/
def sampleRevs : Revisions :=
  { r24H := { date := "2025-01-11", completed := false }
    r3Days := { date := "2025-01-13", completed := false }
    r1Week := { date := "2025-01-17", completed := false }
    r1Month := { date := "2025-02-09", completed := false } }

/-- A concrete note used to evaluate the operations on explicit input. -/
def sampleNote : Note :=
  { id := 1
    subjectName := "Workplace Information Management"
    noteCode := "EMPM01-01"
    completionDate := "2025-01-10"
    revisions := sampleRevs }

/-- A concrete note whose subject contains an embedded double quote,
used to evaluate the CSV escaping on explicit input. -/
def quoteNote : Note :=
  { id := 2
    subjectName := "Test \"Quote\""
    noteCode := "EMPM01-02"
    completionDate := "2025-01-10"
    revisions := sampleRevs }

/-- Counterexample to C1 as stated: the explicit completion date
"9999-12-31" is in YYYY-MM-DD form and parses, yet make_revision_dates
returns no checkpoints — adding even one day passes date.max and the
Python code raises OverflowError at the first timedelta addition. -/
theorem make_revision_dates_overflow :
    parseDate "9999-12-31" = some { year := 9999, month := 12, day := 31 } ∧
    addDays { year := 9999, month := 12, day := 31 } 1 = none ∧
    makeRevisionDates "9999-12-31" = none := by
  decide

/-- C1 as amended: for every completion date string in YYYY-MM-DD form
that parses to a date D whose offset dates all stay within the
supported calendar range (at most 9999-12-31, Python date.max),
make_revision_dates returns exactly the four checkpoints 24H, 3Days,
1Week, 1Month with dates D+1, D+3, D+7 and D+30 days, each with
completed = false; when the 30-day offset passes date.max the addition
raises instead and no checkpoints are produced.  Concretely, for
"2025-01-10" the dates are "2025-01-11", "2025-01-13", "2025-01-17"
and "2025-02-09". -/
theorem make_revision_dates_offsets :
    (∀ (s : String) (d d1 d3 d7 d30 : Date),
      parseDate s = some d →
      addDays d 1 = some d1 → addDays d 3 = some d3 →
      addDays d 7 = some d7 → addDays d 30 = some d30 →
      makeRevisionDates s = some
        { r24H := { date := formatDate d1, completed := false }
          r3Days := { date := formatDate d3, completed := false }
          r1Week := { date := formatDate d7, completed := false }
          r1Month := { date := formatDate d30, completed := false } }) ∧
    (∀ (s : String) (d : Date), parseDate s = some d →
      addDays d 30 = none → makeRevisionDates s = none) ∧
    makeRevisionDates "2025-01-10" = some
        { r24H := { date := "2025-01-11", completed := false }
          r3Days := { date := "2025-01-13", completed := false }
          r1Week := { date := "2025-01-17", completed := false }
          r1Month := { date := "2025-02-09", completed := false } } := by
  refine ⟨?_, ?_, by decide⟩
  · intro s d d1 d3 d7 d30 h h1 h3 h7 h30
    unfold makeRevisionDates
    rw [h]
    simp only [h1, h3, h7, h30]
  · intro s d h h30
    unfold makeRevisionDates
    simp only [h]
    cases h1 : addDays d 1 with
    | none => simp only [h1]
    | some d1 =>
      simp only [h1]
      cases h3 : addDays d 3 with
      | none => simp only [h3]
      | some d3 =>
        simp only [h3]
        cases h7 : addDays d 7 with
        | none => simp only [h7]
        | some d7 => simp only [h7, h30]

/-- Witness for C1: the scheduling law applied at the concrete parse of
"2025-03-01" with its four explicit offset dates, and the overflow case
applied at "9999-12-31", where the 30-day offset has no date. -/
theorem make_revision_dates_offsets_witness :
    makeRevisionDates "2025-03-01" = some
      { r24H := { date := formatDate ⟨2025, 3, 2⟩, completed := false }
        r3Days := { date := formatDate ⟨2025, 3, 4⟩, completed := false }
        r1Week := { date := formatDate ⟨2025, 3, 8⟩, completed := false }
        r1Month := { date := formatDate ⟨2025, 3, 31⟩, completed := false } } ∧
    makeRevisionDates "9999-12-31" = none :=
  ⟨make_revision_dates_offsets.1 "2025-03-01" ⟨2025, 3, 1⟩ ⟨2025, 3, 2⟩
     ⟨2025, 3, 4⟩ ⟨2025, 3, 8⟩ ⟨2025, 3, 31⟩ (by decide) (by decide) (by decide)
     (by decide) (by decide),
   make_revision_dates_offsets.2.1 "9999-12-31" ⟨9999, 12, 31⟩ (by decide)
     (by decide)⟩

/-- Flipping the same checkpoint twice restores the note. -/
theorem flipNote_flipNote (n : Note) (k : RevKey) : flipNote (flipNote n k) k = n := by
  cases k <;> simp [flipNote, setRevCompleted, getRev, Bool.not_not]

/-- Identity of a note survives a flip. -/
theorem flipNote_id (n : Note) (k : RevKey) : (flipNote n k).id = n.id := by
  cases k <;> rfl

/-- A flip negates exactly the completed flag it addresses. -/
theorem getRev_flipNote_completed (n : Note) (k : RevKey) :
    (getRev (flipNote n k).revisions k).completed = !(getRev n.revisions k).completed := by
  cases k <;> rfl

/-- C2: the status classification applies its rules in priority order:
a set completed flag yields Completed regardless of the date; otherwise
a date strictly before today yields Overdue; otherwise a date equal to
today yields DueToday; otherwise the status is Upcoming. -/
theorem classify_priority :
    ∀ (c : Bool) (rd today : Date),
      (c = true → classify c rd today = .completedSt) ∧
      (c = false → dateLt rd today = true → classify c rd today = .overdue) ∧
      (c = false → rd = today → classify c rd today = .dueToday) ∧
      (c = false → dateLt rd today = false → rd ≠ today →
        classify c rd today = .upcoming) := by
  intro c rd today
  refine ⟨?_, ?_, ?_, ?_⟩
  · intro h; simp [classify, h]
  · intro h hlt; simp [classify, h, hlt]
  · intro h he
    subst he
    simp [classify, h, dateLt]
  · intro h hlt hne
    simp [classify, h, hlt, hne]

/-- Witness for C2: the four rules evaluated on explicit dates — a
completed checkpoint dated before today classifies as Completed, and an
uncompleted one as Overdue, DueToday or Upcoming according to its date. -/
theorem classify_priority_witness :
    classify true ⟨2025, 1, 1⟩ ⟨2025, 1, 5⟩ = .completedSt ∧
    classify false ⟨2025, 1, 1⟩ ⟨2025, 1, 5⟩ = .overdue ∧
    classify false ⟨2025, 1, 5⟩ ⟨2025, 1, 5⟩ = .dueToday ∧
    classify false ⟨2025, 1, 9⟩ ⟨2025, 1, 5⟩ = .upcoming :=
  ⟨(classify_priority true ⟨2025, 1, 1⟩ ⟨2025, 1, 5⟩).1 rfl,
   (classify_priority false ⟨2025, 1, 1⟩ ⟨2025, 1, 5⟩).2.1 rfl (by decide),
   (classify_priority false ⟨2025, 1, 5⟩ ⟨2025, 1, 5⟩).2.2.1 rfl rfl,
   (classify_priority false ⟨2025, 1, 9⟩ ⟨2025, 1, 5⟩).2.2.2 rfl (by decide) (by decide)⟩

/-- C3: toggling is a no-op when no note carries the id; when the first
note carrying the id sits between a prefix without the id and a suffix,
only that note is rewritten, and the rewrite preserves the identity,
subject, code and completion date of the note, every checkpoint date,
and every other completed flag, negating exactly the addressed flag. -/
theorem toggle_revision_frame :
    (∀ (notes : List Note) (noteId : Nat) (k : RevKey),
      (∀ n ∈ notes, n.id ≠ noteId) → toggleRevision notes noteId k = notes) ∧
    (∀ (pre post : List Note) (n : Note) (noteId : Nat) (k : RevKey),
      n.id = noteId → (∀ m ∈ pre, m.id ≠ noteId) →
      toggleRevision (pre ++ n :: post) noteId k = pre ++ flipNote n k :: post) ∧
    (∀ (n : Note) (k : RevKey),
      (flipNote n k).id = n.id ∧ (flipNote n k).subjectName = n.subjectName ∧
      (flipNote n k).noteCode = n.noteCode ∧
      (flipNote n k).completionDate = n.completionDate) ∧
    (∀ (n : Note) (k j : RevKey),
      (getRev (flipNote n k).revisions j).date = (getRev n.revisions j).date) ∧
    (∀ (n : Note) (k j : RevKey), j ≠ k →
      getRev (flipNote n k).revisions j = getRev n.revisions j) ∧
    (∀ (n : Note) (k : RevKey),
      (getRev (flipNote n k).revisions k).completed =
        !(getRev n.revisions k).completed) := by
  refine ⟨?_, ?_, ?_, ?_, ?_, ?_⟩
  · intro notes noteId k h
    induction notes with
    | nil => rfl
    | cons n rest ih =>
      have hn : n.id ≠ noteId := h n (by simp)
      simp only [toggleRevision, if_neg hn]
      rw [ih (fun m hm => h m (by simp [hm]))]
  · intro pre post n noteId k hn hpre
    induction pre with
    | nil => simp [toggleRevision, hn]
    | cons p pre ih =>
      have hp : p.id ≠ noteId := hpre p (by simp)
      simp only [List.cons_append, toggleRevision, if_neg hp, List.append_eq]
      rw [ih (fun m hm => hpre m (by simp [hm]))]
  · intro n k
    cases k <;> exact ⟨rfl, rfl, rfl, rfl⟩
  · intro n k j
    cases k <;> cases j <;> rfl
  · intro n k j hjk
    cases k <;> cases j <;> first | rfl | exact absurd rfl hjk
  · intro n k
    exact getRev_flipNote_completed n k

/-- Witness for C3: on the one-note store the operation is a no-op for
the absent id 2, rewrites the note for the present id 1, and the
rewrite leaves the 3Days checkpoint untouched. -/
theorem toggle_revision_frame_witness :
    toggleRevision [sampleNote] 2 .k24H = [sampleNote] ∧
    toggleRevision [sampleNote] 1 .k24H = [flipNote sampleNote .k24H] ∧
    getRev (flipNote sampleNote .k24H).revisions .k3Days =
      getRev sampleNote.revisions .k3Days :=
  ⟨toggle_revision_frame.1 [sampleNote] 2 .k24H (by decide),
   toggle_revision_frame.2.1 [] [] sampleNote 1 .k24H (by decide) (by simp),
   toggle_revision_frame.2.2.2.2.1 sampleNote .k24H .k3Days (by decide)⟩

/-- One pass of the stats accumulator over a checkpoint list adds the
count of unset flags to the pending component and the count of set
flags to the completed component. -/
theorem statsStep_foldl (cps : List Checkpoint) :
    ∀ (p c : Nat),
      cps.foldl statsStep (p, c) =
        (p + cps.countP (fun r => !r.completed),
         c + cps.countP (fun r => r.completed)) := by
  induction cps with
  | nil => intro p c; simp
  | cons r rest ih =>
    intro p c
    cases h : r.completed
    · have hs : statsStep (p, c) r = (p + 1, c) := by simp [statsStep, h]
      rw [List.foldl_cons, hs, ih]
      simp only [List.countP_cons, h, Prod.ext_iff]
      simp
      omega
    · have hs : statsStep (p, c) r = (p, c + 1) := by simp [statsStep, h]
      rw [List.foldl_cons, hs, ih]
      simp only [List.countP_cons, h, Prod.ext_iff]
      simp
      omega

/-- The note-level stats fold accumulates the checkpoint counts of the
flattened revision lists. -/
theorem statsStep_foldl_notes (notes : List Note) :
    ∀ (p c : Nat),
      notes.foldl (fun acc n => (revList n.revisions).foldl statsStep acc) (p, c) =
        (p + (allRevs notes).countP (fun r => !r.completed),
         c + (allRevs notes).countP (fun r => r.completed)) := by
  induction notes with
  | nil => intro p c; simp [allRevs]
  | cons n rest ih =>
    intro p c
    simp only [List.foldl_cons, statsStep_foldl]
    rw [ih]
    have : allRevs (n :: rest) = revList n.revisions ++ allRevs rest := by
      simp [allRevs]
    simp [this, List.countP_append, Prod.ext_iff]
    omega

/-- C4: the stats computation returns the triple of the note count, the
number of checkpoints with the completed flag unset, and the number
with it set, summed across all notes; on the one-note store it returns
(1, 4, 0), and (1, 3, 1) after one checkpoint is toggled. -/
theorem update_stats_counts :
    (∀ notes : List Note,
      updateStats notes =
        (notes.length,
         (allRevs notes).countP (fun r => !r.completed),
         (allRevs notes).countP (fun r => r.completed))) ∧
    updateStats [sampleNote] = (1, 4, 0) ∧
    updateStats (toggleRevision [sampleNote] 1 .k24H) = (1, 3, 1) := by
  refine ⟨?_, by decide, by decide⟩
  intro notes
  unfold updateStats
  rw [statsStep_foldl_notes]
  simp

/-- C10: when the store holds a note with the given id, toggling the
same checkpoint twice restores the notes list exactly, while a single
toggle leaves the found note with that completed flag negated. -/
theorem toggle_revision_involution :
    ∀ (notes : List Note) (noteId : Nat) (k : RevKey) (n : Note),
      findNote notes noteId = some n →
      toggleRevision (toggleRevision notes noteId k) noteId k = notes ∧
      findNote (toggleRevision notes noteId k) noteId = some (flipNote n k) ∧
      (getRev (flipNote n k).revisions k).completed =
        !(getRev n.revisions k).completed := by
  intro notes noteId k
  induction notes with
  | nil => intro n h; simp [findNote] at h
  | cons m rest ih =>
    intro n h
    by_cases hm : m.id = noteId
    · have hn : m = n := by
        unfold findNote at h
        rw [List.find?_cons_of_pos _ (by simp [hm])] at h
        exact Option.some.inj h
      subst hn
      have hflip : (flipNote m k).id = noteId := by rw [flipNote_id, hm]
      refine ⟨?_, ?_, getRev_flipNote_completed m k⟩
      · simp only [toggleRevision, if_pos hm, if_pos hflip, flipNote_flipNote]
      · simp only [toggleRevision, if_pos hm]
        unfold findNote
        exact List.find?_cons_of_pos _ (by simp [hflip])
    · have h' : findNote rest noteId = some n := by
        unfold findNote at h ⊢
        rwa [List.find?_cons_of_neg _ (by simp [hm])] at h
      obtain ⟨h1, h2, h3⟩ := ih n h'
      refine ⟨?_, ?_, h3⟩
      · simp only [toggleRevision, if_neg hm]
        rw [h1]
      · simp only [toggleRevision, if_neg hm]
        unfold findNote at h2 ⊢
        rwa [List.find?_cons_of_neg _ (by simp [hm])]

/-- Witness for C10: toggling the 24H checkpoint twice on the one-note
store restores it, and one toggle negates that flag of the found note. -/
theorem toggle_revision_involution_witness :
    toggleRevision (toggleRevision [sampleNote] 1 .k24H) 1 .k24H = [sampleNote] ∧
    findNote (toggleRevision [sampleNote] 1 .k24H) 1 = some (flipNote sampleNote .k24H) ∧
    (getRev (flipNote sampleNote .k24H).revisions .k24H).completed =
      !(getRev sampleNote.revisions .k24H).completed :=
  toggle_revision_involution [sampleNote] 1 .k24H sampleNote (by decide)

/-- C8: loading returns the empty collection when the persisted file is
absent or its contents fail to decode, and the decoded collection
exactly when the file exists and decodes. -/
theorem load_notes_recovery :
    ∀ decode : String → Option (List Note),
      loadNotes decode none = [] ∧
      (∀ s, decode s = none → loadNotes decode (some s) = []) ∧
      (∀ s v, decode s = some v → loadNotes decode (some s) = v) := by
  intro decode
  refine ⟨rfl, ?_, ?_⟩
  · intro s h
    simp [loadNotes, h]
  · intro s v h
    simp [loadNotes, h]

/-- Witness for C8: recovery evaluated for a decoder that always fails
and for one that returns the one-note collection. -/
theorem load_notes_recovery_witness :
    loadNotes (fun _ => none) (some "x") = [] ∧
    loadNotes (fun _ => some [sampleNote]) (some "x") = [sampleNote] :=
  ⟨(load_notes_recovery (fun _ => none)).2.1 "x" rfl,
   (load_notes_recovery (fun _ => some [sampleNote])).2.2 "x" [sampleNote] rfl⟩

/-- Counterexample to C9 as stated: on the explicit input of a valid
subject and code but the unparseable completion date "not-a-date", the
operation ends in the date-error outcome (an uncaught ValueError in the
Python code), which is neither of the missing-field warning dialogs the
claim promises, though the collection is indeed unchanged. -/
theorem add_note_date_error :
    addNote (some ("EMPM01", "Workplace Information Management")) "N-01"
        "not-a-date" 7 [] = (.dateError, []) ∧
    AddSignal.dateError ≠ .missingSubject ∧
    AddSignal.dateError ≠ .missingCode := by
  decide

/-- C9 as amended: a missing subject selection or an empty stripped
code rejects with the corresponding missing-field signal, a completion
date that does not parse or whose schedule passes date.max ends in the
date-error outcome (an uncaught ValueError or OverflowError,
unreachable from the date-picker widget), every non-success outcome
leaves the collection exactly unchanged, and success appends exactly
one new note with the four scheduled checkpoints at the end of the
collection. -/
theorem add_note_validation :
    ∀ (sd : Option (String × String)) (nc cd : String) (newId : Nat)
      (notes : List Note),
      (sd = none → addNote sd nc cd newId notes = (.missingSubject, notes)) ∧
      (∀ code name, sd = some (code, name) → pyStrip nc = "" →
        addNote sd nc cd newId notes = (.missingCode, notes)) ∧
      (∀ code name, sd = some (code, name) → pyStrip nc ≠ "" →
        makeRevisionDates cd = none →
        addNote sd nc cd newId notes = (.dateError, notes)) ∧
      (∀ code name revs, sd = some (code, name) → pyStrip nc ≠ "" →
        makeRevisionDates cd = some revs →
        addNote sd nc cd newId notes =
          (.ok, notes ++ [{ id := newId, subjectName := name,
                            noteCode := pyStrip nc, completionDate := cd,
                            revisions := revs }])) := by
  intro sd nc cd newId notes
  refine ⟨?_, ?_, ?_, ?_⟩
  · intro h
    subst h
    rfl
  · intro code name h he
    subst h
    simp [addNote, he]
  · intro code name h he hd
    subst h
    simp [addNote, he, hd]
  · intro code name revs h he hr
    subst h
    simp [addNote, he, hr]

/-- Witness for C9: the missing-subject rejection, the missing-code
rejection of a code that is a single no-break space U+00A0 (stripped to
empty, as the Python Unicode strip does), and a successful append
evaluated on explicit input, the code stripped of its surrounding
whitespace and the 2025-01-10 schedule attached. -/
theorem add_note_validation_witness :
    addNote none "x" "2025-01-10" 7 [] = (.missingSubject, []) ∧
    addNote (some ("EMPM01", "Workplace Information Management")) "\u00A0"
        "2025-01-10" 7 [] = (.missingCode, []) ∧
    addNote (some ("EMPM01", "Workplace Information Management")) "  N-01 "
        "2025-01-10" 7 [] =
      (.ok, [{ id := 7, subjectName := "Workplace Information Management",
               noteCode := pyStrip "  N-01 ", completionDate := "2025-01-10",
               revisions := sampleRevs }]) :=
  ⟨(add_note_validation none "x" "2025-01-10" 7 []).1 rfl,
   (add_note_validation (some ("EMPM01", "Workplace Information Management"))
       "\u00A0" "2025-01-10" 7 []).2.1 "EMPM01"
     "Workplace Information Management" rfl (by decide),
   (add_note_validation (some ("EMPM01", "Workplace Information Management"))
       "  N-01 " "2025-01-10" 7 []).2.2.2 "EMPM01"
     "Workplace Information Management" sampleRevs rfl (by decide) (by decide)⟩

/-- A quoted field is enclosed in double quotes whatever its content. -/
theorem isQuoted_quoteField (s : String) : isQuoted (quoteField s) = true := by
  have hd : (quoteField s).data = dq :: (s.data ++ [dq]) := by
    simp [quoteField, dqs, String.data_append]
  have h2 : (dq :: (s.data ++ [dq])).getLast? = some dq := by
    rw [← List.cons_append, List.getLast?_concat]
  have h3 : 2 ≤ (dq :: (s.data ++ [dq])).length := by simp
  unfold isQuoted
  rw [hd]
  simp [h2, h3]

/-- Quote doubling leaves a character list without quotes unchanged. -/
theorem flatMapEsc_of_not_mem (l : List Char) (h : dq ∉ l) :
    l.flatMap (fun c => if c = dq then [dq, dq] else [c]) = l := by
  induction l with
  | nil => rfl
  | cons c rest ih =>
    have hc : c ≠ dq := fun he => h (he ▸ List.mem_cons_self c rest)
    simp only [List.flatMap_cons, if_neg hc]
    rw [ih fun hm => h (List.mem_cons_of_mem _ hm)]
    rfl

/-- Quote doubling leaves a string without quotes unchanged. -/
theorem escQuotes_of_not_mem (s : String) (h : dq ∉ s.data) : escQuotes s = s := by
  cases s with
  | mk l => exact congrArg String.mk (flatMapEsc_of_not_mem l h)

/-- Counterexample to C5 as stated: on the export of the explicit
one-note collection, the header line is written verbatim and none of
its eleven fields is enclosed in double quotes, contradicting the
claim that every field of the produced CSV is quoted. -/
theorem csv_header_fields_unquoted :
    (exportCsvLines [quoteNote]).head? = some csvHeader ∧
    (splitComma csvHeader).map isQuoted = List.replicate 11 false ∧
    exportCsv [quoteNote] ≠ none := by
  decide

/-- C5 as amended: for every non-empty collection the export is the
header line followed by one data line per note in collection order;
every data-row field is enclosed in double quotes; double quotes inside
a field are escaped by doubling (applied by the code to the subject and
code fields, the only fields that can contain them — quote-free fields
pass through unchanged); the subject of the explicit quote-carrying
note renders with the embedded quote doubled.  The header line itself
is written verbatim with unquoted field names. -/
theorem export_csv_rows :
    (∀ notes : List Note, notes ≠ [] →
      exportCsv notes = some (String.intercalate "\n" (exportCsvLines notes)) ∧
      exportCsvLines notes =
        csvHeader :: notes.map (fun n =>
          String.intercalate "," ((csvRow n).map quoteField))) ∧
    (∀ n : Note, ∀ f ∈ (csvRow n).map quoteField, isQuoted f = true) ∧
    (∀ s : String, dq ∉ s.data → escQuotes s = s) ∧
    (csvRow quoteNote).head? = some "Test \"\"Quote\"\"" := by
  refine ⟨?_, ?_, fun s h => escQuotes_of_not_mem s h, by decide⟩
  · intro notes h
    cases notes with
    | nil => exact absurd rfl h
    | cons a l => exact ⟨rfl, rfl⟩
  · intro n f hf
    rw [List.mem_map] at hf
    obtain ⟨x, _, rfl⟩ := hf
    exact isQuoted_quoteField x

/-- Witness for C5: the export of the one-note collection evaluated,
a quote-free field passing through the escape unchanged, and a quoted
field recognized as enclosed in quotes. -/
theorem export_csv_rows_witness :
    exportCsv [quoteNote] =
      some (String.intercalate "\n" (exportCsvLines [quoteNote])) ∧
    escQuotes "2025-01-10" = "2025-01-10" ∧
    isQuoted (quoteField "2025-01-10") = true :=
  ⟨(export_csv_rows.1 [quoteNote] (by decide)).1,
   export_csv_rows.2.2.1 "2025-01-10" (by decide),
   export_csv_rows.2.1 quoteNote (quoteField "2025-01-10") (by decide)⟩

/-- Counterexample to C6 as stated: on the export of the explicit
one-note collection, the third column of the table header row reads
"Completed", not "Completion Date" as the claim names it (the cell
below it does carry the completion date). -/
theorem pdf_header_completed_label :
    exportPdf [sampleNote] =
      some (pdfTableData [sampleNote], pdfSummary [sampleNote]) ∧
    (pdfTableData [sampleNote]).head? = some pdfHeaderRow ∧
    pdfHeaderRow[2]? = some "Completed" ∧
    "Completed" ≠ "Completion Date" := by
  decide

/-- C6 as amended: for every non-empty collection the PDF document
holds one table whose header row has exactly the columns Code, Module,
Completed, 24H, 3 Days, 1 Week, 1 Month (the third column carrying the
completion date under the label "Completed"), one data row per note;
each revision cell is the checkpoint date with the checkmark suffix
exactly when its completed flag is set; and the document ends with the
summary line of the total, pending and completed counts. -/
theorem export_pdf_table :
    (∀ notes : List Note, notes ≠ [] →
      exportPdf notes = some (pdfHeaderRow :: notes.map pdfRow, pdfSummary notes)) ∧
    (∀ r : Checkpoint, r.completed = true → pdfCell r = r.date ++ " ✓") ∧
    (∀ r : Checkpoint, r.completed = false → pdfCell r = r.date) ∧
    (∀ notes : List Note,
      pdfSummary notes = "Total notes: " ++ toString notes.length ++
        " — Pending revisions: " ++
        toString ((allRevs notes).countP fun r => !r.completed) ++
        " — Completed revisions: " ++
        toString ((allRevs notes).countP fun r => r.completed)) := by
  refine ⟨?_, ?_, ?_, fun _ => rfl⟩
  · intro notes h
    cases notes with
    | nil => exact absurd rfl h
    | cons a l => rfl
  · intro r h
    simp [pdfCell, h]
  · intro r h
    simp [pdfCell, h]

/-- Witness for C6: the table and summary of the one-note collection,
and the two cell renderings on an explicit checkpoint. -/
theorem export_pdf_table_witness :
    exportPdf [sampleNote] =
      some (pdfHeaderRow :: [sampleNote].map pdfRow, pdfSummary [sampleNote]) ∧
    pdfCell { date := "2025-01-11", completed := true } = "2025-01-11" ++ " ✓" ∧
    pdfCell { date := "2025-01-11", completed := false } = "2025-01-11" :=
  ⟨export_pdf_table.1 [sampleNote] (by decide),
   export_pdf_table.2.1 { date := "2025-01-11", completed := true } rfl,
   export_pdf_table.2.2.1 { date := "2025-01-11", completed := false } rfl⟩

/-- Membership in the notifications of one note: exactly the labelled
checkpoints with the completed flag unset whose parsed date equals
today or lies one day after, each rendered with the note code, the
label and the due date. -/
theorem dueForNote_mem (n : Note) (today : Nat) (t : Toast) :
    t ∈ dueForNote n today ↔
      ∃ kr ∈ revItems n.revisions, kr.2.completed = false ∧
        ∃ d, parseDate kr.2.date = some d ∧
          (toDays d = today ∨ toDays d = today + 1) ∧
          t = { title := "Revision Reminder",
                body := n.noteCode ++ " — " ++ kr.1 ++ " due " ++ kr.2.date } := by
  unfold dueForNote
  rw [List.mem_filterMap]
  constructor
  · rintro ⟨kr, hkr, hf⟩
    refine ⟨kr, hkr, ?_⟩
    cases hc : kr.2.completed
    · rw [if_neg (by simp [hc])] at hf
      cases hp : parseDate kr.2.date with
      | none =>
        simp only [hp] at hf
        exact absurd hf (by simp)
      | some d =>
        simp only [hp] at hf
        by_cases hd : toDays d = today ∨ toDays d = today + 1
        · rw [if_pos hd] at hf
          exact ⟨rfl, d, rfl, hd, (Option.some.inj hf).symm⟩
        · rw [if_neg hd] at hf
          exact absurd hf (by simp)
    · rw [if_pos (by simp [hc])] at hf
      exact absurd hf (by simp)
  · rintro ⟨kr, hkr, hc, d, hp, hd, rfl⟩
    refine ⟨kr, hkr, ?_⟩
    rw [if_neg (by simp [hc])]
    simp only [hp]
    rw [if_pos hd]

/-- C7: a poller tick emits nothing when notifications are disabled or
the toast channel is unavailable; otherwise it emits a notification for
exactly those checkpoints, across every note, whose completed flag is
unset and whose date equals today or lies exactly one day after today,
each carrying the note code, the checkpoint label and the due date in
its body. -/
theorem check_due_revisions_spec :
    (∀ (avail : Bool) (notes : List Note) (today : Nat),
      checkDueRevisions false avail notes today = []) ∧
    (∀ (en : Bool) (notes : List Note) (today : Nat),
      checkDueRevisions en false notes today = []) ∧
    (∀ (notes : List Note) (today : Nat) (t : Toast),
      t ∈ checkDueRevisions true true notes today ↔
        ∃ n ∈ notes, ∃ kr ∈ revItems n.revisions,
          kr.2.completed = false ∧
          ∃ d, parseDate kr.2.date = some d ∧
            (toDays d = today ∨ toDays d = today + 1) ∧
            t = { title := "Revision Reminder",
                  body := n.noteCode ++ " — " ++ kr.1 ++ " due " ++ kr.2.date }) := by
  refine ⟨fun _ _ _ => rfl, ?_, ?_⟩
  · intro en notes today
    cases en <;> rfl
  · intro notes today t
    show t ∈ (notes.map (fun n => dueForNote n today)).flatten ↔ _
    rw [List.mem_flatten]
    constructor
    · rintro ⟨l, hl, ht⟩
      rw [List.mem_map] at hl
      obtain ⟨n, hn, rfl⟩ := hl
      exact ⟨n, hn, (dueForNote_mem n today t).1 ht⟩
    · rintro ⟨n, hn, h⟩
      exact ⟨dueForNote n today, List.mem_map_of_mem _ hn,
        (dueForNote_mem n today t).2 h⟩

/-- Witness for C7: on the one-note store with today equal to the day
number of 2025-01-11, the 24H reminder is among the emitted
notifications. -/
theorem check_due_revisions_spec_witness :
    ({ title := "Revision Reminder",
       body := "EMPM01-01" ++ " — " ++ "24H" ++ " due " ++ "2025-01-11" } : Toast)
      ∈ checkDueRevisions true true [sampleNote] (toDays ⟨2025, 1, 11⟩) :=
  (check_due_revisions_spec.2.2 [sampleNote] (toDays ⟨2025, 1, 11⟩) _).2
    ⟨sampleNote, by decide,
     ("24H", { date := "2025-01-11", completed := false }), by decide,
     rfl, ⟨2025, 1, 11⟩, by decide, Or.inl rfl, rfl⟩
